import Mathlib

/-!
Verification of `src/Timestamps.py`.

The program constructs Unix timestamps with
`datetime.datetime(year, month, day, 0, 0, 0, tzinfo=utc).timestamp()`.
We embed CPython's proleptic-Gregorian date arithmetic over `Int`:
`is_leap`, `days_before_year`, `days_before_month`, `days_in_month` and
`ymd2ord` follow the corresponding helpers of CPython's `datetime` module
(Python `//` and `%` on a positive divisor are `Int.ediv` / `Int.emod`).
The `datetime` constructor validates `1 <= year <= 9999`,
`1 <= month <= 12`, `1 <= day <= days_in_month(year, month)` and raises
`ValueError` otherwise; we model that with `Except String`.  For an
aware datetime at midnight UTC, `int(dt.timestamp())` equals
`(toordinal(y,m,d) - toordinal(1970,1,1)) * 86400` exactly (the float
detour is exact: the value is an integer well below 2^53), so timestamps
are plain integers here.
-/

/-- CPython `_is_leap`: `year % 4 == 0 and (year % 100 != 0 or year % 400 == 0)`. -/
def is_leap (year : Int) : Bool :=
  year % 4 == 0 && (year % 100 != 0 || year % 400 == 0)

/-- CPython `_DAYS_IN_MONTH[month]` (non-leap table). -/
def days_in_month_tbl (month : Int) : Int :=
  if month == 1 then 31 else if month == 2 then 28 else if month == 3 then 31
  else if month == 4 then 30 else if month == 5 then 31 else if month == 6 then 30
  else if month == 7 then 31 else if month == 8 then 31 else if month == 9 then 30
  else if month == 10 then 31 else if month == 11 then 30 else if month == 12 then 31
  else 0

/-- CPython `_days_in_month(year, month)`. -/
def days_in_month (year month : Int) : Int :=
  if month == 2 && is_leap year then 29 else days_in_month_tbl month

/-- CPython `_DAYS_BEFORE_MONTH[month]`. -/
def days_before_month_tbl (month : Int) : Int :=
  if month == 1 then 0 else if month == 2 then 31 else if month == 3 then 59
  else if month == 4 then 90 else if month == 5 then 120 else if month == 6 then 151
  else if month == 7 then 181 else if month == 8 then 212 else if month == 9 then 243
  else if month == 10 then 273 else if month == 11 then 304 else if month == 12 then 334
  else 0

/-- CPython `_days_before_month(year, month)`. -/
def days_before_month (year month : Int) : Int :=
  days_before_month_tbl month + (if 2 < month && is_leap year then 1 else 0)

/-- CPython `_days_before_year(year)`: days before January 1 of `year`,
with `//` floor division (equal to `Int.ediv` for the positive divisors used). -/
def days_before_year (year : Int) : Int :=
  (year - 1) * 365 + (year - 1) / 4 - (year - 1) / 100 + (year - 1) / 400

/-- CPython `_ymd2ord(year, month, day)`: proleptic Gregorian ordinal,
with `date(1, 1, 1).toordinal() == 1`. -/
def ymd2ord (year month day : Int) : Int :=
  days_before_year year + days_before_month year month + day

/-- `date(1970, 1, 1).toordinal()`. -/
def EPOCH_ORD : Int := 719163

/-- The integer Unix timestamp of `datetime(year, month, day, 0, 0, 0, tzinfo=utc)`. -/
def dt_timestamp (year month day : Int) : Int :=
  (ymd2ord year month day - EPOCH_ORD) * 86400

/-- The validity check of the `datetime` constructor for a midnight UTC instant:
`MINYEAR <= year <= MAXYEAR`, `1 <= month <= 12`,
`1 <= day <= days_in_month(year, month)`. -/
def datetime_ok (year month day : Int) : Bool :=
  1 ≤ year && year ≤ 9999 && 1 ≤ month && month ≤ 12 && 1 ≤ day
    && day ≤ days_in_month year month

/-- `int(datetime(year, month, day, 0, 0, 0, tzinfo=utc).timestamp())`,
raising `ValueError` as the constructor does on an invalid date. -/
def mk_timestamp (year month day : Int) : Except String Int :=
  if datetime_ok year month day then Except.ok (dt_timestamp year month day)
  else Except.error "ValueError: invalid date"

/-- The `target_dates` list of `generate_gmt_timestamps`. -/
def target_dates : List (Int × Int) :=
  [(3, 25), (6, 24), (9, 29), (12, 25)]

/-- Left-to-right effectful map in `Except`, stopping at the first error:
the behaviour of a Python loop whose body may raise. -/
def mapE (f : α → Except String β) : List α → Except String (List β)
  | [] => Except.ok []
  | a :: as =>
    match f a with
    | Except.error e => Except.error e
    | Except.ok b =>
      match mapE f as with
      | Except.error e => Except.error e
      | Except.ok bs => Except.ok (b :: bs)

/-- The inner loop body of `generate_gmt_timestamps` for one `year`:
one timestamp per `(month, day)` in `target_dates`, in order. -/
def gen_year (year : Int) : Except String (List Int) :=
  mapE (fun md => mk_timestamp year md.1 md.2) target_dates

/-- The outer loop of `generate_gmt_timestamps` over its list of years. -/
def gen_loop : List Int → Except String (List Int)
  | [] => Except.ok []
  | y :: ys =>
    match gen_year y with
    | Except.error e => Except.error e
    | Except.ok ts =>
      match gen_loop ys with
      | Except.error e => Except.error e
      | Except.ok rest => Except.ok (ts ++ rest)

/-- Python `range(lo, hi)` as a list: `[lo, lo + 1, ..., hi - 1]`,
empty when `hi <= lo`. -/
def int_range_core (lo : Int) : Nat → List Int
  | 0 => []
  | n + 1 => lo :: int_range_core (lo + 1) n

/-- Python `range(lo, hi)`. -/
def int_range (lo hi : Int) : List Int :=
  int_range_core lo (hi - lo).toNat

/-- `generate_gmt_timestamps(start_year, end_year)` of `src/Timestamps.py`:
the seed timestamp for December 25 of `start_year`, then for each year in
`range(start_year + 1, end_year + 1)` the four target dates in order. -/
def generate_gmt_timestamps (start_year end_year : Int) : Except String (List Int) :=
  match mk_timestamp start_year 12 25 with
  | Except.error e => Except.error e
  | Except.ok seed =>
    match gen_loop (int_range (start_year + 1) (end_year + 1)) with
    | Except.error e => Except.error e
    | Except.ok rest => Except.ok (seed :: rest)

/-- Default `start_year` of `generate_gmt_timestamps`. -/
def default_start_year : Int := 2024

/-- Default `end_year` of `generate_gmt_timestamps`. -/
def default_end_year : Int := 2044

/-- Python `print(list_of_ints)` output: `[a, b, c]`. -/
def py_list_str (ts : List Int) : String :=
  "[" ++ String.intercalate ", " (ts.map toString) ++ "]"

/-- The module-level driver: lines printed to stdout by running the file
(`print(timestamps)` then the f-string with `len(timestamps)`); a raised
`ValueError` would instead appear as a traceback line. -/
def run_module : List String :=
  match generate_gmt_timestamps default_start_year default_end_year with
  | Except.error e => [e]
  | Except.ok ts =>
    [py_list_str ts, "Total timestamps generated: " ++ toString ts.length]

/-- The four timestamps the inner loop appends for one `year`, in order. -/
def year_dates (y : Int) : List Int :=
  [dt_timestamp y 3 25, dt_timestamp y 6 24, dt_timestamp y 9 29, dt_timestamp y 12 25]

/-- The timestamps the outer loop appends for a list of years. -/
def years_dates : List Int → List Int
  | [] => []
  | y :: ys => year_dates y ++ years_dates ys

/-- The value `generate_gmt_timestamps` returns whenever it returns at all. -/
def pure_gen (s e : Int) : List Int :=
  dt_timestamp s 12 25 :: years_dates (int_range (s + 1) (e + 1))

/-! ### Helper lemmas -/

theorem mk_timestamp_cases (y m d : Int) :
    mk_timestamp y m d = Except.ok (dt_timestamp y m d) ∨
      mk_timestamp y m d = Except.error "ValueError: invalid date" := by
  unfold mk_timestamp
  split
  · exact Or.inl rfl
  · exact Or.inr rfl

theorem mk_timestamp_ok_inv {y m d t : Int} (h : mk_timestamp y m d = Except.ok t) :
    t = dt_timestamp y m d := by
  rcases mk_timestamp_cases y m d with hc | hc <;> rw [hc] at h
  · injection h with h; exact h.symm
  · cases h

theorem gen_year_eq_of_ok {y : Int} {ts : List Int} (h : gen_year y = Except.ok ts) :
    ts = year_dates y := by
  rcases mk_timestamp_cases y 3 25 with c1 | c1 <;>
    rcases mk_timestamp_cases y 6 24 with c2 | c2 <;>
      rcases mk_timestamp_cases y 9 29 with c3 | c3 <;>
        rcases mk_timestamp_cases y 12 25 with c4 | c4 <;>
          simp [gen_year, target_dates, mapE, c1, c2, c3, c4, year_dates] at h <;>
            simp [year_dates, h]

theorem gen_loop_eq_of_ok : ∀ {ys ts : List Int},
    gen_loop ys = Except.ok ts → ts = years_dates ys := by
  intro ys
  induction ys with
  | nil =>
    intro ts h
    simp only [gen_loop] at h
    injection h with h
    simp [years_dates, ← h]
  | cons y ys ih =>
    intro ts h
    simp only [gen_loop] at h
    cases hy : gen_year y with
    | error e => rw [hy] at h; cases h
    | ok l =>
      rw [hy] at h
      cases hr : gen_loop ys with
      | error e => rw [hr] at h; cases h
      | ok rest =>
        rw [hr] at h
        injection h with h
        rw [← h, years_dates, gen_year_eq_of_ok hy, ih hr]

theorem generate_eq_of_ok {s e : Int} {ts : List Int}
    (h : generate_gmt_timestamps s e = Except.ok ts) : ts = pure_gen s e := by
  simp only [generate_gmt_timestamps] at h
  cases hm : mk_timestamp s 12 25 with
  | error e => rw [hm] at h; cases h
  | ok seed =>
    rw [hm] at h
    cases hl : gen_loop (int_range (s + 1) (e + 1)) with
    | error e => rw [hl] at h; cases h
    | ok rest =>
      rw [hl] at h
      injection h with h
      rw [← h, pure_gen, mk_timestamp_ok_inv hm, gen_loop_eq_of_ok hl]

theorem datetime_ok_target {y : Int} (h1 : 1 ≤ y) (h2 : y ≤ 9999) :
    datetime_ok y 3 25 = true ∧ datetime_ok y 6 24 = true ∧
      datetime_ok y 9 29 = true ∧ datetime_ok y 12 25 = true := by
  simp [datetime_ok, days_in_month, days_in_month_tbl, h1, h2]

theorem gen_year_ok {y : Int} (h1 : 1 ≤ y) (h2 : y ≤ 9999) :
    gen_year y = Except.ok (year_dates y) := by
  obtain ⟨c1, c2, c3, c4⟩ := datetime_ok_target h1 h2
  simp [gen_year, target_dates, mapE, mk_timestamp, c1, c2, c3, c4, year_dates]

theorem gen_loop_ok : ∀ {ys : List Int}, (∀ y ∈ ys, 1 ≤ y ∧ y ≤ 9999) →
    gen_loop ys = Except.ok (years_dates ys) := by
  intro ys
  induction ys with
  | nil => intro _; simp [gen_loop, years_dates]
  | cons y ys ih =>
    intro hmem
    have hy := hmem y (by simp)
    have hys : ∀ z ∈ ys, 1 ≤ z ∧ z ≤ 9999 := fun z hz => hmem z (by simp [hz])
    simp only [gen_loop, gen_year_ok hy.1 hy.2, ih hys, years_dates]

theorem int_range_core_mem : ∀ (n : Nat) (lo y : Int),
    y ∈ int_range_core lo n → lo ≤ y ∧ y < lo + n := by
  intro n
  induction n with
  | zero => intro lo y h; simp [int_range_core] at h
  | succ n ih =>
    intro lo y h
    simp only [int_range_core, List.mem_cons] at h
    rcases h with h | h
    · omega
    · have := ih (lo + 1) y h
      omega

theorem int_range_core_length : ∀ (n : Nat) (lo : Int),
    (int_range_core lo n).length = n := by
  intro n
  induction n with
  | zero => intro lo; simp [int_range_core]
  | succ n ih => intro lo; simp [int_range_core, ih]

theorem generate_ok {s e : Int} (h1 : 1 ≤ s) (h2 : s ≤ 9999) (h3 : e ≤ 9999) :
    generate_gmt_timestamps s e = Except.ok (pure_gen s e) := by
  have hm : mk_timestamp s 12 25 = Except.ok (dt_timestamp s 12 25) := by
    have c := (datetime_ok_target h1 h2).2.2.2
    simp [mk_timestamp, c]
  have hl : gen_loop (int_range (s + 1) (e + 1)) =
      Except.ok (years_dates (int_range (s + 1) (e + 1))) := by
    apply gen_loop_ok
    intro y hy
    have := int_range_core_mem _ _ _ hy
    omega
  simp only [generate_gmt_timestamps, hm, hl, pure_gen]

theorem years_dates_length : ∀ ys : List Int, (years_dates ys).length = 4 * ys.length := by
  intro ys
  induction ys with
  | nil => simp [years_dates]
  | cons y ys ih => simp [years_dates, year_dates, ih]; omega

theorem pure_gen_length (s e : Int) :
    (pure_gen s e).length = 1 + 4 * (e - s).toNat := by
  have h1 : ((e + 1) - (s + 1)) = e - s := by omega
  simp [pure_gen, years_dates_length, int_range, int_range_core_length, h1]
  omega

theorem dt_within (y : Int) :
    dt_timestamp y 3 25 < dt_timestamp y 6 24 ∧
      dt_timestamp y 6 24 < dt_timestamp y 9 29 ∧
        dt_timestamp y 9 29 < dt_timestamp y 12 25 := by
  simp only [dt_timestamp, ymd2ord, days_before_month, days_before_month_tbl, EPOCH_ORD]
  cases is_leap y <;> simp <;> omega

theorem dt_cross (y : Int) : dt_timestamp y 12 25 < dt_timestamp (y + 1) 3 25 := by
  simp only [dt_timestamp, ymd2ord, days_before_month, days_before_month_tbl,
    days_before_year, EPOCH_ORD]
  cases is_leap y <;> cases is_leap (y + 1) <;> simp <;> omega

theorem chain_seed_core : ∀ (n : Nat) (a prev : Int), prev < dt_timestamp a 3 25 →
    List.Chain' (· < ·) (prev :: years_dates (int_range_core a n)) := by
  intro n
  induction n with
  | zero => intro a prev _; simp [int_range_core, years_dates]
  | succ n ih =>
    intro a prev hlt
    simp only [int_range_core, years_dates, year_dates, List.cons_append, List.nil_append]
    exact List.chain'_cons.mpr ⟨hlt, List.chain'_cons.mpr ⟨(dt_within a).1,
      List.chain'_cons.mpr ⟨(dt_within a).2.1, List.chain'_cons.mpr ⟨(dt_within a).2.2,
        ih (a + 1) (dt_timestamp a 12 25) (dt_cross a)⟩⟩⟩⟩

theorem pure_gen_chain (s e : Int) : List.Chain' (· < ·) (pure_gen s e) :=
  chain_seed_core _ _ _ (dt_cross s)

theorem pure_gen_pairwise (s e : Int) : List.Pairwise (· < ·) (pure_gen s e) :=
  List.chain'_iff_pairwise.mp (pure_gen_chain s e)

theorem mem_years_dates : ∀ {ys : List Int} {t : Int}, t ∈ years_dates ys →
    ∃ y, ∃ md ∈ target_dates, t = dt_timestamp y md.1 md.2 := by
  intro ys
  induction ys with
  | nil => intro t h; simp [years_dates] at h
  | cons y ys ih =>
    intro t h
    simp only [years_dates, List.mem_append] at h
    rcases h with h | h
    · simp only [year_dates, List.mem_cons, List.not_mem_nil, or_false] at h
      rcases h with h | h | h | h
      · exact ⟨y, (3, 25), by simp [target_dates], h⟩
      · exact ⟨y, (6, 24), by simp [target_dates], h⟩
      · exact ⟨y, (9, 29), by simp [target_dates], h⟩
      · exact ⟨y, (12, 25), by simp [target_dates], h⟩
    · exact ih h

theorem seed_le_mem {s e t : Int} (h : t ∈ pure_gen s e) :
    dt_timestamp s 12 25 ≤ t := by
  have hp := pure_gen_pairwise s e
  rw [pure_gen] at h hp
  rcases List.mem_cons.mp h with h | h
  · omega
  · exact le_of_lt ((List.pairwise_cons.mp hp).1 t h)

theorem dt_timestamp_emod (y m d : Int) : dt_timestamp y m d % 86400 = 0 := by
  simp [dt_timestamp, Int.mul_emod_left]

theorem mem_pure_gen_form {s e t : Int} (ht : t ∈ pure_gen s e) :
    t = dt_timestamp s 12 25 ∨ ∃ y, ∃ md ∈ target_dates, t = dt_timestamp y md.1 md.2 := by
  rw [pure_gen] at ht
  rcases List.mem_cons.mp ht with h0 | h0
  · exact Or.inl h0
  · exact Or.inr (mem_years_dates h0)

theorem mem_pure_gen_emod {s e t : Int} (ht : t ∈ pure_gen s e) : t % 86400 = 0 := by
  rcases mem_pure_gen_form ht with h0 | ⟨y, md, _, h0⟩ <;> rw [h0] <;>
    exact dt_timestamp_emod _ _ _

/-! ### Claims -/

/-- Claim C1: for every `start_year <= end_year`, a sequence returned by
`generate_gmt_timestamps(start_year, end_year)` has length exactly
`1 + 4 * (end_year - start_year)`. -/
theorem C1_result_length (s e : Int) (ts : List Int) (hse : s ≤ e)
    (h : generate_gmt_timestamps s e = Except.ok ts) :
    (ts.length : Int) = 1 + 4 * (e - s) := by
  rw [generate_eq_of_ok h, pure_gen_length]
  push_cast
  omega

theorem C1_result_length_witness :
    (2024 : Int) ≤ 2025 ∧
      ((([1735084800, 1742860800, 1750723200, 1759104000, 1766620800] : List Int).length : Int)
        = 1 + 4 * (2025 - 2024)) :=
  ⟨by decide,
    C1_result_length 2024 2025 [1735084800, 1742860800, 1750723200, 1759104000, 1766620800]
      (by decide) (by rfl)⟩

/-- Claim C2: the first element of a returned sequence is the timestamp of
December 25 of `start_year` at midnight UTC, and no element is the timestamp of
March 25, June 24 or September 29 of `start_year`. -/
theorem C2_seed_only (s e : Int) (ts : List Int)
    (h : generate_gmt_timestamps s e = Except.ok ts) :
    ts.head? = some (dt_timestamp s 12 25) ∧
      ∀ t ∈ ts, t ≠ dt_timestamp s 3 25 ∧ t ≠ dt_timestamp s 6 24 ∧
        t ≠ dt_timestamp s 9 29 := by
  rw [generate_eq_of_ok h]
  constructor
  · simp [pure_gen]
  · intro t ht
    have hle := seed_le_mem ht
    obtain ⟨w1, w2, w3⟩ := dt_within s
    refine ⟨by omega, by omega, by omega⟩

theorem C2_seed_only_witness :
    ([1735084800, 1742860800, 1750723200, 1759104000, 1766620800] : List Int).head?
        = some (dt_timestamp 2024 12 25) ∧
      ∀ t ∈ ([1735084800, 1742860800, 1750723200, 1759104000, 1766620800] : List Int),
        t ≠ dt_timestamp 2024 3 25 ∧ t ≠ dt_timestamp 2024 6 24 ∧
          t ≠ dt_timestamp 2024 9 29 :=
  C2_seed_only 2024 2025 [1735084800, 1742860800, 1750723200, 1759104000, 1766620800] (by rfl)

/-- Claim C3: `generate_gmt_timestamps(2024, 2024)` is exactly `[1735084800]` and
`generate_gmt_timestamps(2024, 2025)` is exactly
`[1735084800, 1742860800, 1750723200, 1759104000, 1766620800]`. -/
theorem C3_concrete_values :
    generate_gmt_timestamps 2024 2024 = Except.ok [1735084800] ∧
      generate_gmt_timestamps 2024 2025 =
        Except.ok [1735084800, 1742860800, 1750723200, 1759104000, 1766620800] :=
  ⟨by rfl, by rfl⟩

/-- Claim C4: a returned sequence is strictly increasing, each element strictly
greater than its predecessor, and hence has no two equal elements. -/
theorem C4_strictly_increasing (s e : Int) (ts : List Int)
    (h : generate_gmt_timestamps s e = Except.ok ts) :
    List.Chain' (· < ·) ts ∧ List.Pairwise (· < ·) ts := by
  rw [generate_eq_of_ok h]
  exact ⟨pure_gen_chain s e, pure_gen_pairwise s e⟩

theorem C4_strictly_increasing_witness :
    List.Chain' (· < ·)
        ([1735084800, 1742860800, 1750723200, 1759104000, 1766620800] : List Int) ∧
      List.Pairwise (· < ·)
        ([1735084800, 1742860800, 1750723200, 1759104000, 1766620800] : List Int) :=
  C4_strictly_increasing 2024 2025
    [1735084800, 1742860800, 1750723200, 1759104000, 1766620800] (by rfl)

/-- Claim C5 counterexample: with `start_year = 0` and `end_year = -1 < start_year`,
the datetime constructor rejects year 0 (outside `MINYEAR..MAXYEAR`), so the call
raises a `ValueError` instead of returning the one-element seed list. -/
theorem C5_counterexample :
    generate_gmt_timestamps 0 (-1) = Except.error "ValueError: invalid date" ∧
      ¬ generate_gmt_timestamps 0 (-1) = Except.ok [dt_timestamp 0 12 25] := by
  constructor
  · rfl
  · intro h
    rw [(by rfl : generate_gmt_timestamps 0 (-1)
      = (Except.error "ValueError: invalid date" : Except String (List Int)))] at h
    cases h

/-- Claim C5 (amended): for every `start_year` accepted by the date constructor
(`1 <= start_year <= 9999`) and every `end_year < start_year`, the call raises no
exception and returns exactly the one-element seed list for December 25 of
`start_year`. -/
theorem C5_empty_range (s e : Int) (h1 : 1 ≤ s) (h2 : s ≤ 9999) (h3 : e < s) :
    generate_gmt_timestamps s e = Except.ok [dt_timestamp s 12 25] := by
  have hg := generate_ok h1 h2 (by omega : e ≤ 9999)
  rw [hg]
  have h0 : (e + 1 - (s + 1)).toNat = 0 := by omega
  rw [pure_gen, int_range, h0]
  rfl

theorem C5_empty_range_witness :
    generate_gmt_timestamps 2024 2000 = Except.ok [dt_timestamp 2024 12 25] :=
  C5_empty_range 2024 2000 (by decide) (by decide) (by decide)

/-- Claim C6: every element of a returned sequence is a midnight-UTC instant
(a multiple of 86400 seconds, i.e. 00:00:00 on its UTC day) whose calendar date
is one of the four target `(month, day)` pairs of some year, or December 25 of
`start_year`. -/
theorem C6_calendar_dates (s e : Int) (ts : List Int)
    (h : generate_gmt_timestamps s e = Except.ok ts) :
    ∀ t ∈ ts, t % 86400 = 0 ∧
      (t = dt_timestamp s 12 25 ∨
        ∃ y, ∃ md ∈ target_dates, t = dt_timestamp y md.1 md.2) := by
  rw [generate_eq_of_ok h]
  intro t ht
  exact ⟨mem_pure_gen_emod ht, mem_pure_gen_form ht⟩

theorem C6_calendar_dates_witness :
    (1742860800 : Int) % 86400 = 0 ∧
      ((1742860800 : Int) = dt_timestamp 2024 12 25 ∨
        ∃ y, ∃ md ∈ target_dates, (1742860800 : Int) = dt_timestamp y md.1 md.2) :=
  C6_calendar_dates 2024 2025
    [1735084800, 1742860800, 1750723200, 1759104000, 1766620800] (by rfl)
    1742860800 (by decide)

/-- Claim C7: the module driver takes no arguments, calls the generator with the
defaults `start_year = 2024`, `end_year = 2044` (so the sequence has
`1 + 4 * 20 = 81` elements) and prints exactly two lines: the sequence as a
literal integer list, then `Total timestamps generated: <N>` with `N` the
sequence length. -/
theorem C7_driver :
    default_start_year = 2024 ∧ default_end_year = 2044 ∧
      ∃ ts, generate_gmt_timestamps default_start_year default_end_year = Except.ok ts ∧
        ts.length = 81 ∧
        run_module = [py_list_str ts, "Total timestamps generated: " ++ toString ts.length] ∧
        run_module.length = 2 := by
  have hok : generate_gmt_timestamps default_start_year default_end_year
      = Except.ok (pure_gen 2024 2044) := by
    simp only [default_start_year, default_end_year]
    exact generate_ok (by decide) (by decide) (by decide)
  refine ⟨rfl, rfl, pure_gen 2024 2044, hok, ?_, ?_, ?_⟩
  · rw [pure_gen_length]
    decide
  · simp only [run_module, hok]
  · simp only [run_module, hok, List.length_cons, List.length_nil]

/-- Claim C8: for every year range the date constructor can represent
(`1 <= start_year <= 9999` and every loop year at most 9999),
`generate_gmt_timestamps` raises no exception, and each hardcoded
`(month, day)` pair forms a valid calendar date in every representable year. -/
theorem C8_no_runtime_failure (s e : Int) (h1 : 1 ≤ s) (h2 : s ≤ 9999)
    (h3 : e ≤ 9999) :
    (∃ ts, generate_gmt_timestamps s e = Except.ok ts) ∧
      ∀ y : Int, 1 ≤ y → y ≤ 9999 →
        ∀ md ∈ target_dates, datetime_ok y md.1 md.2 = true := by
  refine ⟨⟨pure_gen s e, generate_ok h1 h2 h3⟩, ?_⟩
  intro y hy1 hy2 md hmd
  obtain ⟨c1, c2, c3, c4⟩ := datetime_ok_target hy1 hy2
  simp only [target_dates, List.mem_cons, List.not_mem_nil, or_false] at hmd
  rcases hmd with h0 | h0 | h0 | h0 <;> subst h0
  · exact c1
  · exact c2
  · exact c3
  · exact c4

theorem C8_no_runtime_failure_witness :
    (∃ ts, generate_gmt_timestamps 2024 2044 = Except.ok ts) ∧
      ∀ y : Int, 1 ≤ y → y ≤ 9999 →
        ∀ md ∈ target_dates, datetime_ok y md.1 md.2 = true :=
  C8_no_runtime_failure 2024 2044 (by decide) (by decide) (by decide)

/-- Claim C9: `generate_gmt_timestamps` is deterministic, a pure function of its
two arguments: two calls with identical arguments return element-wise equal
sequences. -/
theorem C9_deterministic (s e : Int) (ts1 ts2 : List Int)
    (h1 : generate_gmt_timestamps s e = Except.ok ts1)
    (h2 : generate_gmt_timestamps s e = Except.ok ts2) :
    ts1 = ts2 ∧ ∀ i : Nat, ts1.get? i = ts2.get? i := by
  rw [h1] at h2
  injection h2 with h2
  exact ⟨h2, fun i => by rw [h2]⟩

theorem C9_deterministic_witness :
    ([1735084800] : List Int) = [1735084800] ∧
      ∀ i : Nat, ([1735084800] : List Int).get? i = ([1735084800] : List Int).get? i :=
  C9_deterministic 2024 2024 [1735084800] [1735084800] (by rfl) (by rfl)

/-- Claim C10: every element of a returned sequence is an exact multiple of
86400, since every generated instant is midnight UTC. -/
theorem C10_day_multiples (s e : Int) (ts : List Int)
    (h : generate_gmt_timestamps s e = Except.ok ts) :
    ∀ t ∈ ts, ∃ k : Int, t = 86400 * k := by
  rw [generate_eq_of_ok h]
  intro t ht
  have hm := mem_pure_gen_emod ht
  exact ⟨t / 86400, by omega⟩

theorem C10_day_multiples_witness :
    ∃ k : Int, (1759104000 : Int) = 86400 * k :=
  C10_day_multiples 2024 2025
    [1735084800, 1742860800, 1750723200, 1759104000, 1766620800] (by rfl)
    1759104000 (by decide)
